import Mathlib

/-!
Verification of the flight-availability monitor
(`flights_availability_check.py`) against its natural-language
specification.

The Python program is shallowly embedded: pure helper functions become
Lean functions; the two file-backed throttle gates become explicit state
passing over a small state type, with the outcomes of the external
effects (lock acquisition, file writes, HTTP delivery) supplied as
parameters; machine integers are `Nat`/`Int` (no overflow is possible in
the modelled ranges); the external search and messaging collaborators
are parameters of the orchestrator and driver.
-/

/-! ## Time model

`datetime.now(timezone.utc)` instants are modelled as seconds since the
epoch (`Nat`).  `now.replace(hour=0, minute=0, second=0, microsecond=0)`
is flooring to the enclosing UTC midnight; datetime comparison is `Nat`
comparison. -/

/-- Seconds in one UTC calendar day. -/
def SECONDS_PER_DAY : Nat := 86400

/-- Embeds `now.replace(hour=0, minute=0, second=0, microsecond=0)`: floor an
instant to the UTC midnight that starts its calendar day. -/
def floor_to_day (t : Nat) : Nat := t / SECONDS_PER_DAY * SECONDS_PER_DAY

/-! ## Daily throttle gate (`get_last_hourly_message`,
`save_last_hourly_message`, `should_send_hourly_message`) -/

/-- State of the persisted timestamp file `HOURLY_TIMESTAMP_FILE`:
absent, holding a parsable ISO timestamp, or unreadable/unparsable
(covers both an I/O error while reading and a `fromisoformat` failure,
which the Python code handles identically via `except Exception`). -/
inductive StoredTimestamp where
  | absent
  | parsable (t : Nat)
  | unparsable
deriving DecidableEq, Repr

/-- Embeds `get_last_hourly_message`: read the persisted timestamp.  The
Python body wraps everything in `try/except Exception` and returns
`None` both when the file is absent and when reading or parsing fails. -/
def get_last_hourly_message : StoredTimestamp → Option Nat
  | .absent => none
  | .parsable t => some t
  | .unparsable => none

/-- Embeds `should_send_hourly_message`: under a non-blocking exclusive lock,
decide whether the daily "no flights" digest may be sent now, and
persist `current_day` on a true decision.  `lockOk` is whether
`fcntl.flock(..., LOCK_EX | LOCK_NB)` succeeds (on failure the
`IOError` handler returns `False`); `writeOk` is whether
`save_last_hourly_message` succeeds (it swallows its own errors, so a
failed save leaves the file unchanged but does not change the
decision).  Returns the decision and the resulting file state. -/
def should_send_hourly_message (lockOk writeOk : Bool) (now : Nat)
    (st : StoredTimestamp) : Bool × StoredTimestamp :=
  if lockOk = false then (false, st)
  else
    let current_day := floor_to_day now
    match get_last_hourly_message st with
    | none => (true, if writeOk then .parsable current_day else st)
    | some last =>
        if last < current_day then
          (true, if writeOk then .parsable current_day else st)
        else (false, st)

/-! ## Startup gate (`should_send_startup_message`) -/

/-- Outcome of writing the `.sent` marker file inside the locked
region: the write succeeds; or `open` itself fails so no file is
created; or the file is created but writing into it raises.  In the two
failure cases the exception propagates to the `except` handlers and the
function returns `False`. -/
inductive MarkerWrite where
  | ok
  | failNoFile
  | failFileCreated
deriving DecidableEq, Repr

/-- Embeds `should_send_startup_message`: under a non-blocking exclusive lock,
return `False` if the persisted `.sent` marker exists, otherwise write
the marker and return `True`.  `lockOk` is whether the `flock` call
succeeds; `marker` is whether `os.path.exists(STARTUP_LOCK_FILE +
".sent")` holds.  Returns the decision and the resulting marker
state. -/
def should_send_startup_message (lockOk : Bool) (w : MarkerWrite)
    (marker : Bool) : Bool × Bool :=
  if lockOk = false then (false, marker)
  else if marker = true then (false, marker)
  else
    match w with
    | .ok => (true, true)
    | .failNoFile => (false, marker)
    | .failFileCreated => (false, true)

/-- Run a sequence of startup-gate calls against the shared persisted
marker, threading the marker state; returns the list of decisions and
the final marker. -/
def run_startup_calls (calls : List (Bool × MarkerWrite)) (marker : Bool) :
    List Bool × Bool :=
  match calls with
  | [] => ([], marker)
  | (lk, w) :: rest =>
      let r := should_send_startup_message lk w marker
      let rr := run_startup_calls rest r.2
      (r.1 :: rr.1, rr.2)

/-! ### Lemmas about the gates -/

/-- Once the marker is set, every startup-gate call returns `false` and
the marker stays set. -/
theorem run_startup_calls_marker_true (calls : List (Bool × MarkerWrite)) :
    (run_startup_calls calls true).1.count true = 0 ∧
    (run_startup_calls calls true).2 = true := by
  induction calls with
  | nil => simp [run_startup_calls]
  | cons c rest ih =>
      obtain ⟨lk, w⟩ := c
      simp only [run_startup_calls, should_send_startup_message]
      cases lk <;> simp [ih]

/-- Across any call sequence the startup gate returns `true` at most
once. -/
theorem run_startup_calls_at_most_one (calls : List (Bool × MarkerWrite))
    (marker : Bool) : (run_startup_calls calls marker).1.count true ≤ 1 := by
  induction calls generalizing marker with
  | nil => simp [run_startup_calls]
  | cons c rest ih =>
      obtain ⟨lk, w⟩ := c
      simp only [run_startup_calls]
      cases marker with
      | true =>
          simp only [should_send_startup_message]
          cases lk <;>
            simp [List.count_cons, (run_startup_calls_marker_true rest).1]
      | false =>
          cases lk with
          | false =>
              simpa [should_send_startup_message, List.count_cons] using ih false
          | true =>
              cases w <;>
                simp [should_send_startup_message, List.count_cons,
                  (run_startup_calls_marker_true rest).1, ih false, ih true]

/-! ### Claims C1 - C3 -/

/-- C1: with both lock acquisitions succeeding and no I/O errors, and a
persisted last-sent timestamp that is absent or earlier than today's
UTC midnight, two daily-gate calls on the same UTC calendar day return
true then false (the first persisting today's UTC midnight), and a call
on a later UTC calendar day returns true again. -/
theorem daily_gate_true_false_then_true (st : StoredTimestamp)
    (n1 n2 n3 : Nat) (hsame : floor_to_day n1 = floor_to_day n2)
    (hnext : floor_to_day n1 < floor_to_day n3)
    (hinit : st = .absent ∨ ∃ t, st = .parsable t ∧ t < floor_to_day n1) :
    (should_send_hourly_message true true n1 st).1 = true ∧
    (should_send_hourly_message true true n1 st).2
      = .parsable (floor_to_day n1) ∧
    (should_send_hourly_message true true n2
      (should_send_hourly_message true true n1 st).2).1 = false ∧
    (should_send_hourly_message true true n3
      (should_send_hourly_message true true n2
        (should_send_hourly_message true true n1 st).2).2).1 = true := by
  have h1 : should_send_hourly_message true true n1 st
      = (true, .parsable (floor_to_day n1)) := by
    rcases hinit with h | ⟨t, hst, ht⟩
    · simp [h, should_send_hourly_message, get_last_hourly_message]
    · simp [hst, should_send_hourly_message, get_last_hourly_message, ht]
  have h2 : should_send_hourly_message true true n2
      (StoredTimestamp.parsable (floor_to_day n1))
      = (false, .parsable (floor_to_day n1)) := by
    simp [should_send_hourly_message, get_last_hourly_message, ← hsame]
  have h3 : (should_send_hourly_message true true n3
      (StoredTimestamp.parsable (floor_to_day n1))).1 = true := by
    simp [should_send_hourly_message, get_last_hourly_message, hnext]
  rw [h1]
  exact ⟨rfl, rfl, by rw [h2], by rw [h2]; exact h3⟩

/-- Witness for C1: absent initial state, two calls at seconds 0 and
3600 of day 0, third call on day 1. -/
theorem daily_gate_true_false_then_true_witness :
    floor_to_day 0 = floor_to_day 3600 ∧
    floor_to_day 0 < floor_to_day 86400 ∧
    ((should_send_hourly_message true true 0 .absent).1 = true ∧
     (should_send_hourly_message true true 0 .absent).2
       = .parsable (floor_to_day 0) ∧
     (should_send_hourly_message true true 3600
       (should_send_hourly_message true true 0 .absent).2).1 = false ∧
     (should_send_hourly_message true true 86400
       (should_send_hourly_message true true 3600
         (should_send_hourly_message true true 0 .absent).2).2).1 = true) :=
  ⟨by decide, by decide,
   daily_gate_true_false_then_true .absent 0 3600 86400 (by decide)
     (by decide) (Or.inl rfl)⟩

/-- C2 counterexample: an unparseable persisted timestamp does NOT make
the gate decide false — with the lock acquired, the gate treats the
unreadable timestamp as "never sent", decides true, and overwrites the
file with today's midnight. -/
theorem daily_gate_unparsable_decides_true :
    (should_send_hourly_message true true 86400 .unparsable).1 = true := by
  decide

/-- C2 amended: failure to acquire the lock makes the gate decide false
with the persisted state unchanged; but an error while reading or
parsing the persisted timestamp is swallowed by
`get_last_hourly_message` (treated as "no previous message"), so the
gate decides true regardless of the save outcome, and when the save
succeeds the unparseable timestamp is overwritten with today's UTC
midnight. -/
theorem daily_gate_error_behaviour (now : Nat) (w : Bool)
    (st : StoredTimestamp) :
    should_send_hourly_message false w now st = (false, st) ∧
    (should_send_hourly_message true w now .unparsable).1 = true ∧
    should_send_hourly_message true true now .unparsable
      = (true, .parsable (floor_to_day now)) := by
  refine ⟨?_, ?_, ?_⟩
  · simp [should_send_hourly_message]
  · simp [should_send_hourly_message, get_last_hourly_message]
  · simp [should_send_hourly_message, get_last_hourly_message]

/-- C3: across any sequence of startup-gate calls sharing the persisted
marker, at most one call returns true; a call that observes an existing
marker, fails to acquire the lock, or hits a write error returns false;
and a successful call with no marker set returns true and sets the
marker. -/
theorem startup_gate_at_most_once :
    (∀ (calls : List (Bool × MarkerWrite)) (marker : Bool),
      (run_startup_calls calls marker).1.count true ≤ 1) ∧
    (∀ (lk : Bool) (w : MarkerWrite) (m : Bool),
      m = true ∨ lk = false ∨ w ≠ .ok →
      (should_send_startup_message lk w m).1 = false) ∧
    should_send_startup_message true .ok false = (true, true) := by
  refine ⟨run_startup_calls_at_most_one, ?_, rfl⟩
  rintro lk w m (rfl | rfl | hw)
  · cases lk <;> simp [should_send_startup_message]
  · simp [should_send_startup_message]
  · cases m
    · cases lk
      · simp [should_send_startup_message]
      · cases w
        · exact absurd rfl hw
        · simp [should_send_startup_message]
        · simp [should_send_startup_message]
    · cases lk <;> simp [should_send_startup_message]

/-- Witness for C3: a concrete three-call sequence (lock failure, then
success, then a call that sees the marker) yields exactly one true, and
the pointwise clause holds for a marker-observed call. -/
theorem startup_gate_at_most_once_witness :
    (run_startup_calls [(false, .ok), (true, .ok), (true, .ok)] false).1.count
      true ≤ 1 ∧
    (should_send_startup_message true .ok true).1 = false ∧
    should_send_startup_message true .ok false = (true, true) :=
  ⟨startup_gate_at_most_once.1 [(false, .ok), (true, .ok), (true, .ok)] false,
   startup_gate_at_most_once.2.1 true .ok true (Or.inl rfl),
   startup_gate_at_most_once.2.2⟩

/-! ## Strings

Python string operations used by the filter pipeline, made
kernel-computable: `needle in haystack` (substring test) and
`str.lower()`. -/

/-- Tests `needle.isPrefixOf` at some position of the haystack: Python's
`needle in haystack` on the underlying character lists. -/
def char_sub (needle : List Char) : List Char → Bool
  | [] => needle.isPrefixOf []
  | c :: rest => needle.isPrefixOf (c :: rest) || char_sub needle rest

/-- Python `needle in haystack` for strings (substring test). -/
def str_in (needle haystack : String) : Bool :=
  char_sub needle.data haystack.data

/-- Python `s.lower()` (per-character lowercasing). -/
def str_lower (s : String) : String := ⟨s.data.map Char.toLower⟩

/-! ## Data model

`AvailabilityRecord` rows as returned by the search collaborator
(fields read by the program), route configuration, and `MatchResult`. -/

/-- The nested `item["Route"]` object: the fields the program reads. -/
structure ApiRoute where
  Source : String
  OriginAirport : String
  DestinationAirport : String
deriving DecidableEq, Repr

/-- One availability row.  `JMileageCost` is `none` when the field is
unset (`item.get("JMileageCost", 0) or 0` treats unset, `None` and `0`
alike as `0`). -/
structure Item where
  Route : ApiRoute
  JAvailable : Bool
  JRemainingSeats : Int
  JMileageCost : Option Nat
  JAirlines : String
  JDirect : Bool
  Date : String
deriving DecidableEq, Repr

/-- One `route_preferences` sub-rule. -/
structure RoutePref where
  origins : List String
  destinations : List String
  airlines : List String
deriving DecidableEq, Repr

/-- One route configuration entry of the `searches` literal. -/
structure RouteConfig where
  name : String
  origins : List String
  destinations : List String
  airlines : Option (List String)
  max_miles : Nat
  direct_only : Bool := false
  route_preferences : Option (List RoutePref) := none
deriving DecidableEq, Repr

/-- One qualifying result as accumulated by `search_routes`. -/
structure MatchResult where
  period : String
  program : String
  route_name : String
  origin : String
  destination : String
  date : String
  miles : Nat
  seats : Int
  airlines : String
  is_direct : Bool
deriving DecidableEq, Repr

/-! ## Filter pipeline -/

/-- Embeds `filter_by_airline`: true when there is no airline restriction
(`required_airlines` is `None` or the empty list, both falsy), else
true iff some required code occurs as a substring of the record's
`JAirlines` string. -/
def filter_by_airline (item : Item) (required_airlines : Option (List String)) :
    Bool :=
  match required_airlines with
  | none => true
  | some req =>
      if req.isEmpty then true
      else req.any (fun airline => str_in airline item.JAirlines)

/-- Embeds `filter_by_direct`: true when directness is not required, else the
record's `JDirect` flag. -/
def filter_by_direct (item : Item) (direct_only : Bool) : Bool :=
  if direct_only = false then true else item.JDirect

/-- One sub-rule of `filter_by_route_preferences` fully matches: origin
in the sub-rule's origins, destination in its destinations, and (when
its `airlines` is non-empty) some airline code occurs as a substring of
the record's `JAirlines`. -/
def pref_matches (item : Item) (p : RoutePref) : Bool :=
  p.origins.contains item.Route.OriginAirport &&
  p.destinations.contains item.Route.DestinationAirport &&
  (p.airlines.isEmpty || p.airlines.any (fun airline => str_in airline item.JAirlines))

/-- Embeds `filter_by_route_preferences`: true when `route_preferences` is
`None` or empty (accept all), else true iff some sub-rule (first full
match wins in the Python loop) fully matches. -/
def filter_by_route_preferences (item : Item)
    (route_preferences : Option (List RoutePref)) : Bool :=
  match route_preferences with
  | none => true
  | some prefs =>
      if prefs.isEmpty then true else prefs.any (pref_matches item)

/-- Embeds `int(item.get("JMileageCost", 0) or 0)`: the record's mileage cost,
with unset or zero treated as 0. -/
def miles_of (item : Item) : Nat := item.JMileageCost.getD 0

/-- The mileage stage of the `search_routes` loop:
`if miles > route_config["max_miles"]: continue`. -/
def mileage_ok (item : Item) (max_miles : Nat) : Bool :=
  !(miles_of item > max_miles)

/-- Python truthiness of `route_config.get("route_preferences")`:
present and a non-empty list. -/
def prefs_truthy (o : Option (List RoutePref)) : Bool :=
  match o with
  | none => false
  | some prefs => !prefs.isEmpty

/-- The per-record body of the `search_routes` filtering loop: the
record survives all `continue` stages — program source (lowercased)
equals the program name, business availability with remaining seats,
mileage cap, route preferences when truthy else airline requirement,
and directness. -/
def item_passes (program : String) (rc : RouteConfig) (item : Item) : Bool :=
  if str_lower item.Route.Source ≠ program then false
  else if item.JAvailable = false ∨ item.JRemainingSeats ≤ 0 then false
  else if mileage_ok item rc.max_miles = false then false
  else if prefs_truthy rc.route_preferences then
    if filter_by_route_preferences item rc.route_preferences = false then false
    else filter_by_direct item rc.direct_only
  else
    if filter_by_airline item rc.airlines = false then false
    else filter_by_direct item rc.direct_only

/-- Build the result dict appended by `search_routes` for a surviving
record. -/
def to_result (period program route_name : String) (item : Item) :
    MatchResult :=
  { period := period, program := program, route_name := route_name,
    origin := item.Route.OriginAirport,
    destination := item.Route.DestinationAirport,
    date := item.Date, miles := miles_of item,
    seats := item.JRemainingSeats, airlines := item.JAirlines,
    is_direct := item.JDirect }

/-! ## Search orchestrator (`search_routes`)

`check_seats` (an HTTP call) is the external search collaborator; it is
a parameter of the orchestrator.  A `none` result covers every failure
the code folds together with `if not data or not data.get("data"):
continue` — network error, non-success status (both make `check_seats`
return `None`) and a missing `"data"` key; a payload whose `"data"`
list is empty contributes no records either way. -/

/-- One named period of the `searches` literal: its date range and its
`{program → [route_config]}` map (insertion-ordered). -/
structure PeriodConfig where
  period : String
  start_date : String
  end_date : String
  programs : List (String × List RouteConfig)
deriving DecidableEq, Repr

/-- The search collaborator, keyed by period name, program name and
route configuration. -/
abbrev Fetch := String → String → RouteConfig → Option (List Item)

/-- The contribution of one `(period, program, route_config)` triple to
the run's accumulated results: nothing if the collaborator fails, else
the surviving records in order, tagged as result dicts. -/
def route_results (fetch : Fetch) (period program : String)
    (rc : RouteConfig) : List MatchResult :=
  match fetch period program rc with
  | none => []
  | some items =>
      (items.filter (item_passes program rc)).map
        (to_result period program rc.name)

/-- Embeds `search_routes`: iterate periods, programs and routes in
configuration order, accumulating each route's surviving records. -/
def search_routes (fetch : Fetch) (searches : List PeriodConfig) :
    List MatchResult :=
  searches.flatMap (fun pc =>
    pc.programs.flatMap (fun pr =>
      pr.2.flatMap (fun rc => route_results fetch pc.period pr.1 rc)))

/-! ### The concrete `searches` configuration literal -/

/-- Alaska route 1: ORD→HKG, any airline, connections allowed. -/
def alaska_route_1 : RouteConfig :=
  { name := "ORD→HKG (Any airline, connecting OK)", origins := ["ORD"],
    destinations := ["HKG"], airlines := none, max_miles := 85000 }

/-- Alaska route 2: merged US→Asia direct-only route with
`route_preferences`. -/
def alaska_route_2 : RouteConfig :=
  { name := "US→Asia (Direct flights only)",
    origins := ["ORD", "DFW", "LAX", "SFO"],
    destinations := ["HND", "NRT", "TPE"], airlines := none,
    max_miles := 75000, direct_only := true,
    route_preferences := some
      [{ origins := ["ORD", "DFW"], destinations := ["HND", "NRT"],
         airlines := ["AA"] },
       { origins := ["LAX", "SFO"], destinations := ["TPE"],
         airlines := ["JX"] }] }

/-- Aeroplan route: direct-only, no airline filter. -/
def aeroplan_route_1 : RouteConfig :=
  { name := "ORD/LAX/SFO/SEA→TPE/HND/NRT (Direct only)",
    origins := ["ORD", "LAX", "SFO", "SEA"],
    destinations := ["TPE", "HND", "NRT"], airlines := none,
    max_miles := 87500, direct_only := true }

/-- The `searches` literal of `search_routes`. -/
def the_searches : List PeriodConfig :=
  [{ period := "dec_us_to_asia", start_date := "2025-12-05",
     end_date := "2025-12-15",
     programs := [("alaska", [alaska_route_1, alaska_route_2]),
                  ("aeroplan", [aeroplan_route_1])] }]

/-! ### Lemmas about the orchestrator -/

/-- Congruence helper for `flatMap`. -/
theorem list_flatMap_congr {α β : Type} {l : List α} {f g : α → List β}
    (h : ∀ x ∈ l, f x = g x) : l.flatMap f = l.flatMap g := by
  induction l with
  | nil => rfl
  | cons a rest ih =>
      simp only [List.flatMap_cons]
      rw [h a (List.mem_cons_self a rest), ih (fun x hx => h x (List.mem_cons_of_mem a hx))]

/-- A collaborator that fails on the route keyed `k` and behaves like
`fetch` everywhere else. -/
def fail_route (fetch : Fetch) (k : String × String × String) : Fetch :=
  fun period program rc =>
    if (period, program, rc.name) = k then none else fetch period program rc

/-- Flat form of `item_passes`: the loop of `continue` stages equals
the conjunction of its stage predicates. -/
theorem item_passes_eq (program : String) (rc : RouteConfig) (item : Item) :
    item_passes program rc item =
      ((str_lower item.Route.Source == program) && item.JAvailable &&
       decide (item.JRemainingSeats > 0) && mileage_ok item rc.max_miles &&
       (if prefs_truthy rc.route_preferences then
          filter_by_route_preferences item rc.route_preferences
        else filter_by_airline item rc.airlines) &&
       filter_by_direct item rc.direct_only) := by
  unfold item_passes
  split_ifs with h1 h2 h3 h4 h5 h6 h7 h8 <;> simp_all
  all_goals
    intro hav hseats
    exfalso
    rcases h3 with h | h
    · simp [h] at hav
    · omega

/-- Case-insensitive string equality (the spec's reading of the
program-source comparison; the code lowercases only the source). -/
def ci_eq (a b : String) : Bool := str_lower a == str_lower b

/-! ### Claims C5 - C8 -/

/-- C5: for a program name already in lowercase (as all configured
program names are) and a route whose `route_preferences` is not the
empty list (as in every configured route), a record is kept iff its
program source case-insensitively equals the program name, business
seats are available, the mileage cap holds, the route-preferences
predicate holds when preferences are set (the `airlines` field being
ignored) else the required-airline predicate holds, and the
direct-flight check holds. -/
theorem orchestrator_keep_iff (program : String) (rc : RouteConfig)
    (item : Item) (hprog : str_lower program = program)
    (hprefs : rc.route_preferences ≠ some []) :
    item_passes program rc item = true ↔
      (ci_eq item.Route.Source program = true ∧
       item.JAvailable = true ∧ item.JRemainingSeats > 0 ∧
       miles_of item ≤ rc.max_miles ∧
       (match rc.route_preferences with
        | some prefs => filter_by_route_preferences item (some prefs) = true
        | none => filter_by_airline item rc.airlines = true) ∧
       filter_by_direct item rc.direct_only = true) := by
  have hm : mileage_ok item rc.max_miles = true ↔
      miles_of item ≤ rc.max_miles := by
    by_cases h : miles_of item ≤ rc.max_miles
    · have h2 : ¬ miles_of item > rc.max_miles := by omega
      simp [mileage_ok, h, h2]
    · have h2 : miles_of item > rc.max_miles := by omega
      simp [mileage_ok, h, h2]
  rw [item_passes_eq]
  cases hrp : rc.route_preferences with
  | none =>
      simp [prefs_truthy, ci_eq, hprog, hm, and_assoc]
  | some prefs =>
      have hne : prefs ≠ [] := fun h => hprefs (by rw [hrp, h])
      have ht : prefs_truthy (some prefs) = true := by
        simp [prefs_truthy, List.isEmpty_iff, hne]
      simp [ht, ci_eq, hprog, hm, and_assoc]

/-- A concrete record kept by the merged Alaska route. -/
def item_pass_example : Item :=
  { Route := { Source := "Alaska", OriginAirport := "ORD",
               DestinationAirport := "HND" },
    JAvailable := true, JRemainingSeats := 2, JMileageCost := some 70000,
    JAirlines := "AA", JDirect := true, Date := "2025-12-06" }

/-- Witness for C5 at the configured merged Alaska route. -/
theorem orchestrator_keep_iff_witness :
    str_lower "alaska" = "alaska" ∧
    alaska_route_2.route_preferences ≠ some [] ∧
    item_passes "alaska" alaska_route_2 item_pass_example = true :=
  ⟨by decide, by decide,
   (orchestrator_keep_iff "alaska" alaska_route_2 item_pass_example
      (by decide) (by decide)).mpr
     ⟨by decide, rfl, by decide, by decide,
      by simp only [alaska_route_2]; decide, rfl⟩⟩

/-- Sub-rule with empty airlines (claim C6's first sub-rule). -/
def pref_ab : RoutePref :=
  { origins := ["A"], destinations := ["B"], airlines := [] }

/-- Sub-rule requiring airline X (claim C6's second sub-rule). -/
def pref_cd : RoutePref :=
  { origins := ["C"], destinations := ["D"], airlines := ["X"] }

/-- Record (A, B, airline Y). -/
def item_ab : Item :=
  { Route := { Source := "alaska", OriginAirport := "A",
               DestinationAirport := "B" },
    JAvailable := true, JRemainingSeats := 1, JMileageCost := some 1000,
    JAirlines := "Y", JDirect := true, Date := "2025-12-06" }

/-- Record (C, D, airline Z). -/
def item_cd : Item :=
  { Route := { Source := "alaska", OriginAirport := "C",
               DestinationAirport := "D" },
    JAvailable := true, JRemainingSeats := 1, JMileageCost := some 1000,
    JAirlines := "Z", JDirect := true, Date := "2025-12-06" }

/-- C6: `filter_by_route_preferences` accepts everything when the
preference list is absent or empty; otherwise it accepts exactly when
some sub-rule has the record's origin among its origins, its
destination among its destinations, and empty airlines or an airline
overlap; on the claim's concrete sub-rules, record (A,B,Y) matches and
record (C,D,Z) does not. -/
theorem route_preferences_semantics :
    (∀ item : Item, filter_by_route_preferences item none = true ∧
        filter_by_route_preferences item (some []) = true) ∧
    (∀ (item : Item) (prefs : List RoutePref), prefs ≠ [] →
      (filter_by_route_preferences item (some prefs) = true ↔
        ∃ p ∈ prefs, item.Route.OriginAirport ∈ p.origins ∧
          item.Route.DestinationAirport ∈ p.destinations ∧
          (p.airlines = [] ∨ ∃ a ∈ p.airlines, str_in a item.JAirlines = true))) ∧
    filter_by_route_preferences item_ab (some [pref_ab, pref_cd]) = true ∧
    filter_by_route_preferences item_cd (some [pref_ab, pref_cd]) = false := by
  refine ⟨fun item => ⟨rfl, rfl⟩, ?_, by decide, by decide⟩
  intro item prefs hne
  simp [filter_by_route_preferences, List.isEmpty_iff, hne, pref_matches,
    List.any_eq_true, List.isEmpty_iff, and_assoc]

/-- Witness for C6: the general characterisation applied to the
concrete sub-rules and record (A,B,Y). -/
theorem route_preferences_semantics_witness :
    ∃ p ∈ [pref_ab, pref_cd], item_ab.Route.OriginAirport ∈ p.origins ∧
      item_ab.Route.DestinationAirport ∈ p.destinations ∧
      (p.airlines = [] ∨ ∃ a ∈ p.airlines, str_in a item_ab.JAirlines = true) :=
  (route_preferences_semantics.2.1 item_ab [pref_ab, pref_cd]
    (by decide)).mp (by decide)

/-- C7: the mileage stage passes exactly the records with cost at most
the cap (so cost > M is excluded, cost = M included); an unset or zero
`JMileageCost` is treated as cost 0 and always passes; and a record
failing the mileage stage is never kept. -/
theorem mileage_filter_boundary :
    (∀ (item : Item) (M : Nat),
      mileage_ok item M = decide (miles_of item ≤ M)) ∧
    (∀ item : Item, item.JMileageCost = none ∨ item.JMileageCost = some 0 →
      miles_of item = 0 ∧ ∀ M : Nat, mileage_ok item M = true) ∧
    (∀ (program : String) (rc : RouteConfig) (item : Item),
      mileage_ok item rc.max_miles = false →
      item_passes program rc item = false) := by
  refine ⟨?_, ?_, ?_⟩
  · intro item M
    by_cases h : miles_of item ≤ M
    · have h2 : ¬ miles_of item > M := by omega
      simp [mileage_ok, h, h2]
    · have h2 : miles_of item > M := by omega
      simp [mileage_ok, h, h2]
  · intro item h
    rcases h with h | h <;> simp [miles_of, h, mileage_ok]
  · intro program rc item h
    rw [item_passes_eq]
    simp [h]

/-- A record costing more than Alaska route 1's 85000-mile cap. -/
def item_heavy : Item :=
  { Route := { Source := "alaska", OriginAirport := "ORD",
               DestinationAirport := "HKG" },
    JAvailable := true, JRemainingSeats := 3, JMileageCost := some 90001,
    JAirlines := "CX", JDirect := true, Date := "2025-12-07" }

/-- A record with unset mileage cost. -/
def item_unset_miles : Item :=
  { Route := { Source := "alaska", OriginAirport := "ORD",
               DestinationAirport := "HKG" },
    JAvailable := true, JRemainingSeats := 3, JMileageCost := none,
    JAirlines := "CX", JDirect := true, Date := "2025-12-07" }

/-- Witness for C7 at the configured Alaska route and concrete
records. -/
theorem mileage_filter_boundary_witness :
    mileage_ok item_heavy 85000 = decide (miles_of item_heavy ≤ 85000) ∧
    (miles_of item_unset_miles = 0 ∧
      ∀ M : Nat, mileage_ok item_unset_miles M = true) ∧
    item_passes "alaska" alaska_route_1 item_heavy = false :=
  ⟨mileage_filter_boundary.1 item_heavy 85000,
   mileage_filter_boundary.2.1 item_unset_miles (Or.inl rfl),
   mileage_filter_boundary.2.2 "alaska" alaska_route_1 item_heavy (by decide)⟩

/-- C8: a collaborator failure contributes no results for that route,
and a run in which exactly the route keyed `k` fails yields the full
accumulated results with only that route's contribution emptied — every
other route's results are unchanged and the run is not aborted. -/
theorem search_skips_failed_route :
    (∀ (fetch : Fetch) (period program : String) (rc : RouteConfig),
      fetch period program rc = none →
      route_results fetch period program rc = []) ∧
    (∀ (fetch : Fetch) (k : String × String × String)
       (searches : List PeriodConfig),
      search_routes (fail_route fetch k) searches =
        searches.flatMap (fun pc =>
          pc.programs.flatMap (fun pr =>
            pr.2.flatMap (fun rc =>
              if (pc.period, pr.1, rc.name) = k then []
              else route_results fetch pc.period pr.1 rc)))) := by
  constructor
  · intro fetch period program rc h
    simp [route_results, h]
  · intro fetch k searches
    unfold search_routes
    refine list_flatMap_congr (fun pc _ => ?_)
    refine list_flatMap_congr (fun pr _ => ?_)
    refine list_flatMap_congr (fun rc _ => ?_)
    by_cases h : (pc.period, pr.1, rc.name) = k
    · simp [route_results, fail_route, h]
    · simp [route_results, fail_route, h]

/-- Witness for C8: a collaborator that always fails contributes
nothing for the first configured Alaska route. -/
theorem search_skips_failed_route_witness :
    route_results (fun _ _ _ => none) "dec_us_to_asia" "alaska"
      alaska_route_1 = [] :=
  search_skips_failed_route.1 (fun _ _ _ => none) "dec_us_to_asia" "alaska"
    alaska_route_1 rfl

/-! ## Digest formatter (`create_found_message`)

The formatter groups results by period, then program (insertion-ordered
dicts), sorts each program bucket by the tuple `(date, miles)`, groups
each bucket by route name, and appends message fragments.  The grouping
is embedded in its extensional form: keys in first-occurrence order,
each bucket the sublist of entries carrying that key — exactly what the
Python dict-building loops produce.  Each appended fragment is embedded
as a `Line` holding the data interpolated into it (the surrounding
emoji/markdown text carries no further data). -/

/-- Python `<` on strings: code-point lexicographic order on the
character lists. -/
def char_list_lt : List Char → List Char → Bool
  | _, [] => false
  | [], _ :: _ => true
  | a :: as, b :: bs =>
      if a < b then true else if b < a then false else char_list_lt as bs

/-- Python `a < b` for strings. -/
def str_lt (a b : String) : Bool := char_list_lt a.data b.data

/-- The sort key `lambda x: (x["date"], x["miles"])`: tuple comparison,
date first, miles breaking ties. -/
def sort_key_le (a b : MatchResult) : Bool :=
  str_lt a.date b.date || (a.date == b.date && decide (a.miles ≤ b.miles))

/-- The tuple key as a relation. -/
def SortKey (a b : MatchResult) : Prop := sort_key_le a b = true

instance : DecidableRel SortKey := fun a b =>
  inferInstanceAs (Decidable (sort_key_le a b = true))

/-- Embeds `list.sort(key=lambda x: (x["date"], x["miles"]))`: a stable sort
by the tuple key (insertion sort is stable, as Python's sort is). -/
def sort_flights (l : List MatchResult) : List MatchResult :=
  l.insertionSort SortKey

/-- First-occurrence-order deduplication of keys (the order in which a
Python dict built by repeated insertion enumerates its keys). -/
def dedup_first : List String → List String → List String
  | [], _ => []
  | x :: rest, seen =>
      if seen.contains x then dedup_first rest seen
      else x :: dedup_first rest (x :: seen)

/-- The `by_route` dict of `create_found_message`: route names in
first-occurrence order, each mapped to the flights carrying it, in
order. -/
def group_by_route (flights : List MatchResult) :
    List (String × List MatchResult) :=
  (dedup_first (flights.map (·.route_name)) []).map
    (fun route => (route, flights.filter (fun f => f.route_name == route)))

/-- The `by_period` dict after the per-program sort: periods in
first-occurrence order, programs in first-occurrence order within each
period, each program bucket sorted by `(date, miles)`. -/
def by_period (results : List MatchResult) :
    List (String × List (String × List MatchResult)) :=
  (dedup_first (results.map (·.period)) []).map (fun p =>
    let in_p := results.filter (fun r => r.period == p)
    (p, (dedup_first (in_p.map (·.program)) []).map (fun g =>
      (g, sort_flights (in_p.filter (fun r => r.program == g))))))

/-- One appended fragment of the found message, holding the data
interpolated into it: the header with its timestamp, the (constant)
period title, a program header with its match count, a route header,
one rendered match, or the `... and N more flights` summary. -/
inductive Line where
  | header (now : Nat)
  | periodTitle
  | programHeader (program : String) (count : Nat)
  | routeHeader (route : String)
  | matchLine (origin destination date : String) (miles : Nat) (seats : Int)
      (airlines : String) (is_direct : Bool)
  | moreLine (n : Nat)
deriving DecidableEq, Repr

/-- The two `message +=` fragments rendered for one flight. -/
def match_line (f : MatchResult) : Line :=
  .matchLine f.origin f.destination f.date f.miles f.seats f.airlines
    f.is_direct

/-- Fragments for one route group: the route header, the first five
flights, and — when more than five — the `... and N more flights`
summary with the excess count. -/
def render_route (route : String) (route_flights : List MatchResult) :
    List Line :=
  .routeHeader route :: (route_flights.take 5).map match_line ++
    (if route_flights.length > 5 then
      [.moreLine (route_flights.length - 5)] else [])

/-- Fragments for one program group: the program header with its match
count, then the route groups. -/
def render_program (program : String) (flights : List MatchResult) :
    List Line :=
  .programHeader program flights.length ::
    (group_by_route flights).flatMap (fun kv => render_route kv.1 kv.2)

/-- Fragments for one period group: the (hard-coded) period title, then
the program groups. -/
def render_period (programs : List (String × List MatchResult)) :
    List Line :=
  .periodTitle :: programs.flatMap (fun kv => render_program kv.1 kv.2)

/-- Embeds `create_found_message`: `None` for an empty result list, else the
header followed by the grouped, sorted, rendered fragments. -/
def create_found_message (now : Nat) (results : List MatchResult) :
    Option (List Line) :=
  if results.isEmpty then none
  else
    some (.header now ::
      (by_period results).flatMap (fun kv => render_period kv.2))

/-! ### Order lemmas for the sort key -/

/-- Two strings with equal character lists are equal. -/
theorem string_data_ext (a b : String) (h : a.data = b.data) : a = b :=
  congrArg String.mk h

/-- Head characterisation of the lexicographic order. -/
theorem char_list_lt_cons (a b : Char) (as bs : List Char) :
    char_list_lt (a :: as) (b :: bs) = true ↔
      a < b ∨ (a = b ∧ char_list_lt as bs = true) := by
  by_cases h1 : a < b
  · simp [char_list_lt, h1]
  · by_cases h2 : b < a
    · have hne : a ≠ b := ne_of_gt h2
      simp [char_list_lt, h1, h2, hne]
    · have heq : a = b := le_antisymm (not_lt.mp h2) (not_lt.mp h1)
      simp [char_list_lt, h1, h2, heq]

/-- Trichotomy of the lexicographic order. -/
theorem char_list_lt_trichotomy : ∀ x y : List Char,
    char_list_lt x y = true ∨ x = y ∨ char_list_lt y x = true
  | [], [] => Or.inr (Or.inl rfl)
  | [], _ :: _ => Or.inl rfl
  | _ :: _, [] => Or.inr (Or.inr rfl)
  | a :: as, b :: bs => by
      rcases lt_trichotomy a b with h | h | h
      · exact Or.inl ((char_list_lt_cons a b as bs).mpr (Or.inl h))
      · subst h
        rcases char_list_lt_trichotomy as bs with h2 | h2 | h2
        · exact Or.inl ((char_list_lt_cons a a as bs).mpr (Or.inr ⟨rfl, h2⟩))
        · exact Or.inr (Or.inl (by rw [h2]))
        · exact Or.inr (Or.inr
            ((char_list_lt_cons a a bs as).mpr (Or.inr ⟨rfl, h2⟩)))
      · exact Or.inr (Or.inr ((char_list_lt_cons b a bs as).mpr (Or.inl h)))

/-- Transitivity of the lexicographic order. -/
theorem char_list_lt_trans : ∀ x y z : List Char,
    char_list_lt x y = true → char_list_lt y z = true →
    char_list_lt x z = true
  | _, y, [] => by intro _ h2; cases y <;> simp [char_list_lt] at h2
  | [], [], _ :: _ => by intro h1 _; simp [char_list_lt] at h1
  | [], _ :: _, _ :: _ => by intro _ _; rfl
  | _ :: _, [], _ :: _ => by intro h1 _; simp [char_list_lt] at h1
  | a :: as, b :: bs, c :: cs => by
      intro h1 h2
      rw [char_list_lt_cons] at h1 h2 ⊢
      rcases h1 with h1 | ⟨rfl, h1⟩
      · rcases h2 with h2 | ⟨rfl, h2⟩
        · exact Or.inl (lt_trans h1 h2)
        · exact Or.inl h1
      · rcases h2 with h2 | ⟨rfl, h2⟩
        · exact Or.inl h2
        · exact Or.inr ⟨rfl, char_list_lt_trans as bs cs h1 h2⟩

/-- Totality of the sort key (as `sorted_mergeSort` requires it). -/
theorem sort_key_le_total (a b : MatchResult) :
    sort_key_le a b || sort_key_le b a := by
  rcases char_list_lt_trichotomy a.date.data b.date.data with h | h | h
  · simp [sort_key_le, str_lt, h]
  · have heq : a.date = b.date := string_data_ext _ _ h
    rcases Nat.le_total a.miles b.miles with hm | hm <;>
      simp [sort_key_le, heq, hm]
  · simp [sort_key_le, str_lt, h]

/-- Transitivity of the sort key (as `sorted_mergeSort` requires it). -/
theorem sort_key_le_trans (a b c : MatchResult) :
    sort_key_le a b → sort_key_le b c → sort_key_le a c := by
  intro h1 h2
  simp only [sort_key_le, Bool.or_eq_true, Bool.and_eq_true, beq_iff_eq,
    decide_eq_true_eq] at h1 h2 ⊢
  rcases h1 with h1 | ⟨hd1, hm1⟩
  · rcases h2 with h2 | ⟨hd2, hm2⟩
    · exact Or.inl (char_list_lt_trans _ _ _ h1 h2)
    · exact Or.inl (by rw [str_lt, ← hd2]; exact h1)
  · rcases h2 with h2 | ⟨hd2, hm2⟩
    · exact Or.inl (by rw [str_lt, hd1]; exact h2)
    · exact Or.inr ⟨hd1.trans hd2, le_trans hm1 hm2⟩

instance : IsTotal MatchResult SortKey :=
  ⟨fun a b => by
    have h := sort_key_le_total a b
    rcases (Bool.or_eq_true _ _).mp h with h | h
    · exact Or.inl h
    · exact Or.inr h⟩

instance : IsTrans MatchResult SortKey :=
  ⟨fun a b c => sort_key_le_trans a b c⟩

/-- The per-program sort yields a list pairwise ordered by the tuple
key. -/
theorem sort_flights_pairwise (l : List MatchResult) :
    (sort_flights l).Pairwise SortKey :=
  List.sorted_insertionSort SortKey l

/-! ### Claim C9 -/

/-- Concrete result dated 2025-12-10. -/
def r_dec10 : MatchResult :=
  { period := "dec_us_to_asia", program := "alaska", route_name := "R1",
    origin := "ORD", destination := "HKG", date := "2025-12-10",
    miles := 60000, seats := 2, airlines := "CX", is_direct := false }

/-- Concrete result dated 2025-12-06, same miles, same grouping keys. -/
def r_dec06 : MatchResult :=
  { period := "dec_us_to_asia", program := "alaska", route_name := "R1",
    origin := "ORD", destination := "HKG", date := "2025-12-06",
    miles := 60000, seats := 2, airlines := "CX", is_direct := false }

/-- C9: for a non-empty result list the found message is the header
followed by the period/program/route-grouped fragments; every innermost
flight list produced by the grouping is sorted by `(date, miles)`
ascending, and so is every route bucket; at most 5 match lines are
rendered per route (`min 5` of the bucket size) and a bucket with more
than 5 flights gets a summary line carrying the excess count; on two
equal-miles results dated 12-10 and 12-06, the 12-06 match line is
rendered before the 12-10 one. -/
theorem found_message_shape :
    (∀ (now : Nat) (results : List MatchResult), results ≠ [] →
      create_found_message now results =
        some (.header now ::
          (by_period results).flatMap (fun kv => render_period kv.2))) ∧
    (∀ (results : List MatchResult) (p : String)
        (programs : List (String × List MatchResult)),
      (p, programs) ∈ by_period results →
      ∀ (g : String) (flights : List MatchResult), (g, flights) ∈ programs →
        flights.Pairwise SortKey ∧
        ∀ (route : String) (rf : List MatchResult),
          (route, rf) ∈ group_by_route flights →
          rf.Pairwise SortKey ∧
          ((rf.take 5).map match_line).length = min 5 rf.length ∧
          (rf.length > 5 →
            Line.moreLine (rf.length - 5) ∈ render_route route rf)) ∧
    create_found_message 0 [r_dec10, r_dec06] =
      some [.header 0, .periodTitle, .programHeader "alaska" 2,
        .routeHeader "R1", match_line r_dec06, match_line r_dec10] := by
  refine ⟨?_, ?_, by decide⟩
  · intro now results h
    simp [create_found_message, h]
  · intro results p programs hp g flights hg
    simp only [by_period, List.mem_map] at hp
    obtain ⟨p', hp', heq⟩ := hp
    injection heq with h1 h2
    subst h1
    rw [← h2] at hg
    simp only [List.mem_map] at hg
    obtain ⟨g', hg', heq2⟩ := hg
    injection heq2 with h3 h4
    subst h3
    have hpw : flights.Pairwise SortKey := by
      rw [← h4]; exact sort_flights_pairwise _
    refine ⟨hpw, ?_⟩
    intro route rf hr
    simp only [group_by_route, List.mem_map] at hr
    obtain ⟨route', hr', heq3⟩ := hr
    injection heq3 with h5 h6
    subst h5
    have hpw2 : rf.Pairwise SortKey := by
      rw [← h6]
      exact List.Pairwise.sublist (List.filter_sublist flights) hpw
    refine ⟨hpw2, by simp [List.length_take], ?_⟩
    intro h5
    simp [render_route, h5]

/-- Six identical results in one route bucket. -/
def six_dec06 : List MatchResult :=
  [r_dec06, r_dec06, r_dec06, r_dec06, r_dec06, r_dec06]

/-- Sorting six identical results leaves them unchanged. -/
theorem sort_six_dec06 : sort_flights six_dec06 = six_dec06 := by decide

/-- Witness for C9: the grouping facts instantiated on the concrete
two-element run, and the summary-line fact on a six-flight route
bucket. -/
theorem found_message_shape_witness :
    create_found_message 5 [r_dec10, r_dec06] =
      some (.header 5 ::
        (by_period [r_dec10, r_dec06]).flatMap (fun kv => render_period kv.2)) ∧
    (sort_flights [r_dec10, r_dec06]).Pairwise SortKey ∧
    Line.moreLine 1 ∈ render_route "R1" six_dec06 := by
  refine ⟨found_message_shape.1 5 [r_dec10, r_dec06] (by decide), ?_, ?_⟩
  · exact (found_message_shape.2.1 [r_dec10, r_dec06] "dec_us_to_asia"
      [("alaska", sort_flights [r_dec10, r_dec06])] (by decide) "alaska"
      (sort_flights [r_dec10, r_dec06]) (by decide)).1
  · have h := ((found_message_shape.2.1 six_dec06 "dec_us_to_asia"
      [("alaska", sort_flights six_dec06)] (by decide) "alaska"
      (sort_flights six_dec06) (by decide)).2 "R1" six_dec06
      (by rw [sort_six_dec06]; decide)).2.2 (by decide)
    simpa [six_dec06] using h

/-! ## Run driver (`check_flights_once`, `send_telegram_message`)

One invocation after the search has completed without an exception:
`results` is the orchestrator's output, `gateDecision` the daily gate's
decision, and `deliveryOk` whether the Telegram HTTP call succeeds
(`send_telegram_message` catches every delivery error and merely
returns a boolean, which the driver discards).  The report records the
returned outcome dict plus the observable effects: whether the daily
gate was consulted, how many found-message and daily-digest deliveries
were attempted, and the ignored delivery results. -/

/-- Embeds `send_telegram_message`: attempts the HTTP post, catches every
error, and returns whether delivery succeeded. -/
def send_telegram_message (deliveryOk : Bool) : Bool := deliveryOk

/-- The outcome dict of `check_flights_once` together with the run's
observable effects. -/
structure RunReport where
  status : String
  flights_found : Nat
  gateConsulted : Bool
  foundAttempts : Nat
  dailyAttempts : Nat
  deliveryResults : List Bool
deriving DecidableEq, Repr

/-- Embeds `check_flights_once` after a search that raised no exception: on
non-empty results, build the found message and (it is non-`None`)
deliver it, never consulting the daily gate; on empty results, consult
the gate and deliver the daily digest only on a true decision; either
way return `{"status": "success", "flights_found": len(results) if
results else 0}`. -/
def check_flights_once (now : Nat) (results : List MatchResult)
    (gateDecision deliveryOk : Bool) : RunReport :=
  if results.isEmpty = false then
    match create_found_message now results with
    | some _ =>
        { status := "success", flights_found := results.length,
          gateConsulted := false, foundAttempts := 1, dailyAttempts := 0,
          deliveryResults := [send_telegram_message deliveryOk] }
    | none =>
        { status := "success", flights_found := results.length,
          gateConsulted := false, foundAttempts := 0, dailyAttempts := 0,
          deliveryResults := [] }
  else if gateDecision then
    { status := "success", flights_found := 0, gateConsulted := true,
      foundAttempts := 0, dailyAttempts := 1,
      deliveryResults := [send_telegram_message deliveryOk] }
  else
    { status := "success", flights_found := 0, gateConsulted := true,
      foundAttempts := 0, dailyAttempts := 0, deliveryResults := [] }

/-! ### Claims C4 and C10 -/

/-- C4: with qualifying results the driver attempts exactly one
found-message delivery and never consults the daily gate; with zero
results and a true gate decision the outcome is status "success" with
0 flights found and exactly one daily-digest delivery attempt; with
zero results and a false gate decision nothing is delivered. -/
theorem driver_dispatch :
    (∀ (now : Nat) (results : List MatchResult) (gate d : Bool),
      results ≠ [] →
      (check_flights_once now results gate d).foundAttempts = 1 ∧
      (check_flights_once now results gate d).gateConsulted = false ∧
      (check_flights_once now results gate d).dailyAttempts = 0) ∧
    (∀ (now : Nat) (d : Bool),
      check_flights_once now [] true d =
        { status := "success", flights_found := 0, gateConsulted := true,
          foundAttempts := 0, dailyAttempts := 1,
          deliveryResults := [send_telegram_message d] }) ∧
    (∀ (now : Nat) (d : Bool),
      (check_flights_once now [] false d).foundAttempts = 0 ∧
      (check_flights_once now [] false d).dailyAttempts = 0) := by
  refine ⟨?_, fun now d => rfl, fun now d => ⟨rfl, rfl⟩⟩
  intro now results gate d h
  cases results with
  | nil => exact absurd rfl h
  | cons a l => simp [check_flights_once, create_found_message]

/-- Witness for C4 at concrete inputs. -/
theorem driver_dispatch_witness :
    ((check_flights_once 0 [r_dec06] true true).foundAttempts = 1 ∧
     (check_flights_once 0 [r_dec06] true true).gateConsulted = false ∧
     (check_flights_once 0 [r_dec06] true true).dailyAttempts = 0) ∧
    check_flights_once 0 [] true true =
      { status := "success", flights_found := 0, gateConsulted := true,
        foundAttempts := 0, dailyAttempts := 1,
        deliveryResults := [send_telegram_message true] } ∧
    ((check_flights_once 0 [] false true).foundAttempts = 0 ∧
     (check_flights_once 0 [] false true).dailyAttempts = 0) :=
  ⟨driver_dispatch.1 0 [r_dec06] true true (by decide),
   driver_dispatch.2.1 0 true, driver_dispatch.2.2 0 true⟩

/-- C10: the returned outcome is independent of delivery success — for
every run that completes its search without an exception the driver
returns status "success" with `flights_found` the number of accumulated
results, even when every attempted delivery fails, and the outcome
fields coincide with those of a run whose deliveries all succeed. -/
theorem outcome_ignores_delivery :
    ∀ (now : Nat) (results : List MatchResult) (gate d : Bool),
      (check_flights_once now results gate d).status = "success" ∧
      (check_flights_once now results gate d).flights_found =
        results.length ∧
      (check_flights_once now results gate d).status =
        (check_flights_once now results gate true).status ∧
      (check_flights_once now results gate d).flights_found =
        (check_flights_once now results gate true).flights_found := by
  intro now results gate d
  cases results with
  | nil => cases gate <;> simp [check_flights_once]
  | cons a l => simp [check_flights_once, create_found_message]
